import Mathlib

/-
Shallow embedding of the Scribe chat server (src/app.py) room coordinator.

Modelling conventions:
* A session handle (Socket.IO `request.sid`) is a `Nat`.
* Timestamps (`datetime.now(TIMEZONE)`) are epoch seconds as `Int`; every
  `datetime.now` call inside one handler invocation is collapsed to the single
  `now` parameter of that handler.  `datetime.min` (the default used when a
  member record has no `last_seen` field) is the constant `datetimeMin`.
* A room code is a list of Unicode code points (`List Nat`); Python's
  `str.upper()` on the ASCII range is `pyUpper`, `str.strip()` is `pyStrip`.
* The MongoDB collection `rooms_collection` is a `List Room`; `find_one` is
  `List.find?`, `update_one` is `updateFirst` (modify the first matching
  document), `delete_one` is `removeFirst`.  The positional `members.$`
  update is `updateFirst` on the member list.  Each `update_one` call site of
  app.py is transcribed as its own named operation below.
* `emit(...)` calls are collected in order as a list of `Emission` values;
  Socket.IO fan-out of a room-targeted emission to individual session handles
  is `deliverTo`, parameterised by the transport's room membership function.
-/

set_option maxHeartbeats 1000000

namespace Scribe

abbrev RoomCode := List Nat

/-- Python `str.upper()` on one ASCII code point (app.py lines 67, 111, 196,
332, 386 call `.upper()` on room codes). -/
def upperChar (c : Nat) : Nat :=
  if 97 ≤ c ∧ c ≤ 122 then c - 32 else c

/-- Python `str.upper()` on a room code. -/
def pyUpper (s : RoomCode) : RoomCode := s.map upperChar

/-- Python whitespace characters recognised by `str.strip()` (ASCII subset). -/
def isPySpace (c : Char) : Bool :=
  c == ' ' || c == '\t' || c == '\n' || c == '\r' || c == '\x0b' || c == '\x0c'

/-- Python `str.strip()`: drop leading and trailing whitespace. -/
def pyStrip (s : String) : String :=
  String.mk (((s.data.dropWhile isPySpace).reverse.dropWhile isPySpace).reverse)

/-- GRACE_PERIOD_SECONDS = 600 (app.py line 19). -/
def GRACE_PERIOD_SECONDS : Int := 600

/-- Epoch seconds of Python's `datetime.min` (year 1), the default `last_seen`
used at app.py lines 283 and 461 when the field is absent. -/
def datetimeMin : Int := -62135596800

inductive MemberStatus
  | active
  | disconnected
deriving DecidableEq

/-- One element of a room's `members` array (app.py lines 212-217). -/
structure Member where
  username : String
  sid : Nat
  status : MemberStatus
  last_seen : Option Int
deriving DecidableEq

/-- One element of a room's `messages` array as stored by `handle_send_message`
(app.py lines 363-370): only `username`, `message` and `timestamp`; the stored
record has no `is_own` field. -/
structure ChatMessage where
  username : String
  message : String
  timestamp : Int
deriving DecidableEq

/-- A room document (app.py lines 88-97). -/
structure Room where
  room_code : RoomCode
  room_name : String
  host_sid : Option Nat
  members : List Member
  messages : List ChatMessage
  is_code_visible : Bool
  created_at : Int
  last_active_at : Int
deriving DecidableEq

/-- One entry of the `update_user_list` payload (app.py lines 181-188,
313-320, 514-521). -/
structure UserEntry where
  username : String
  is_host : Bool
  is_active : Bool
deriving DecidableEq

/-- Payload of a `receive_message` event (app.py lines 355-360). -/
structure ReceiveMessagePayload where
  username : String
  message : String
  timestamp : Int
  is_own : Bool
deriving DecidableEq

/-- A dynamically typed JSON value appearing in `data.get('payload', ...)`. -/
inductive PyValue
  | str (s : String)
  | bool (b : Bool)
deriving DecidableEq

/-- Payloads of the events emitted by the handlers. -/
inductive EventPayload
  | errorMsg (message : String)
  | systemMessage (text : String)
  | roomInfo (room_name : String) (room_code : RoomCode) (is_code_visible : Bool)
      (is_host : Bool) (username : String)
  | hostDisconnectGrace (username : String) (is_host_disconnect : Bool) (seconds_left : Int)
  | chatHistoryEv (messages : List ChatMessage)
  | updateUserList (users : List UserEntry)
  | hostReturned
  | newHost (sid : Nat)
  | receiveMessage (payload : ReceiveMessagePayload)
  | roomUpdated (key : String) (value : PyValue)
  | roomDeleted (message : String)
deriving DecidableEq

/-- Target of one `emit(...)` call: the calling connection, one handle, a whole
Socket.IO room, or a room minus a skipped handle. -/
inductive EmitTarget
  | toCaller
  | toSid (sid : Nat)
  | toRoom (code : RoomCode)
  | toRoomSkip (code : RoomCode) (skip : Nat)
deriving DecidableEq

abbrev Emission := EmitTarget × EventPayload

/-- MongoDB `update_one`: modify the first document matching the filter. -/
def updateFirst (p : α → Bool) (g : α → α) : List α → List α
  | [] => []
  | x :: xs => if p x then g x :: xs else x :: updateFirst p g xs

/-- MongoDB `delete_one`: remove the first document matching the filter. -/
def removeFirst (p : α → Bool) : List α → List α
  | [] => []
  | x :: xs => if p x then xs else x :: removeFirst p xs

/-- Mongo filter `{'room_code': room_code}`. -/
def byCode (room_code : RoomCode) (r : Room) : Bool :=
  r.room_code == room_code

/-- Member-array condition `sid == ...` (e.g. `next(m for m in members if
m['sid'] == sid)`). -/
def bySid (sid : Nat) (m : Member) : Bool :=
  m.sid == sid

/-- Member-array condition `username == ...`. -/
def byUsername (username : String) (m : Member) : Bool :=
  m.username == username

/-- Mongo filter `{'members.sid': sid}` (app.py line 147). -/
def hasSid (sid : Nat) (r : Room) : Bool :=
  r.members.any (bySid sid)

/-- Mongo filter `{'room_code': room_code, 'members.username': username}`
(app.py line 224). -/
def byCodeAndUsername (room_code : RoomCode) (username : String) (r : Room) : Bool :=
  byCode room_code r && r.members.any (byUsername username)

/-- Mongo filter `{'room_code': room_code, 'members.sid': sid}`
(app.py line 154). -/
def byCodeAndSid (room_code : RoomCode) (sid : Nat) (r : Room) : Bool :=
  byCode room_code r && r.members.any (bySid sid)

/-- `update_room_activity` (app.py lines 45-50): stamp `last_active_at`. -/
def update_room_activity (room_code : RoomCode) (now : Int) (db : List Room) :
    List Room :=
  updateFirst (byCode room_code) (fun r => { r with last_active_at := now }) db

/-- The reconnect update of `handle_join_room` (app.py lines 223-230): rebind
the matching member's sid, set it active, refresh `last_seen`. -/
def rebindMember (room_code : RoomCode) (username : String) (sid : Nat) (now : Int)
    (db : List Room) : List Room :=
  updateFirst (byCodeAndUsername room_code username)
    (fun r =>
      { r with members :=
        (updateFirst (byUsername username)
          (fun m =>
            { m with
              sid := sid
              status := MemberStatus.active
              last_seen := some now })
          r.members) })
    db

/-- `$set {'host_sid': sid}` (app.py lines 235-238 and 496-499). -/
def setHostSid (room_code : RoomCode) (sid : Nat) (db : List Room) : List Room :=
  updateFirst (byCode room_code) (fun r => { r with host_sid := some sid }) db

/-- The first-member join update (app.py lines 246-253): set `host_sid` and
push the member in one `update_one`. -/
def pushMemberAsHost (room_code : RoomCode) (sid : Nat) (member_data : Member)
    (db : List Room) : List Room :=
  updateFirst (byCode room_code)
    (fun r =>
      { r with
        host_sid := some sid
        members := r.members ++ [member_data] })
    db

/-- The plain new-member join update (app.py lines 254-258): push the member. -/
def pushMember (room_code : RoomCode) (member_data : Member) (db : List Room) :
    List Room :=
  updateFirst (byCode room_code)
    (fun r => { r with members := r.members ++ [member_data] }) db

/-- The disconnect update (app.py lines 153-159): positional `$set` of the
matching member's status and `last_seen`. -/
def markDisconnected (room_code : RoomCode) (sid : Nat) (now : Int)
    (db : List Room) : List Room :=
  updateFirst (byCodeAndSid room_code sid)
    (fun r =>
      { r with members :=
        (updateFirst (bySid sid)
          (fun m =>
            { m with
              status := MemberStatus.disconnected
              last_seen := some now })
          r.members) })
    db

/-- The message store update (app.py lines 363-370): `$push` the stored record
(username, message, timestamp only). -/
def pushMessage (room_code : RoomCode) (stored : ChatMessage) (db : List Room) :
    List Room :=
  updateFirst (byCode room_code)
    (fun r => { r with messages := r.messages ++ [stored] }) db

/-- The sweeper's `$pull` of expired members by sid (app.py lines 471-474). -/
def pullExpired (room_code : RoomCode) (toRemove : List Nat) (db : List Room) :
    List Room :=
  updateFirst (byCode room_code)
    (fun r => { r with members := r.members.filter (fun m => !toRemove.contains m.sid) })
    db

/-- Socket.IO fan-out of one emission to individual session handles, given the
transport's room-membership map `connected` and the calling handle. -/
def deliverTo (caller : Nat) (connected : RoomCode → List Nat) :
    Emission → List (Nat × EventPayload)
  | (EmitTarget.toCaller, e) => [(caller, e)]
  | (EmitTarget.toSid s, e) => [(s, e)]
  | (EmitTarget.toRoom c, e) => (connected c).map (fun s => (s, e))
  | (EmitTarget.toRoomSkip c k, e) =>
      ((connected c).filter (fun s => !(s == k))).map (fun s => (s, e))

/-- Per-handle deliveries obtained by fanning out a list of emissions. -/
def deliveries (caller : Nat) (connected : RoomCode → List Nat)
    (es : List Emission) : List (Nat × EventPayload) :=
  (es.map (deliverTo caller connected)).flatten

/-- Python `updated_room.get('messages', [])[-50:]` (app.py line 299): the
trailing window of at most 50 stored messages. -/
def chatHistory (msgs : List ChatMessage) : List ChatMessage :=
  msgs.drop (msgs.length - 50)

/-- Default used to model Python's `list[0]` indexing at app.py line 494; the
surrounding code has already checked the list is non-empty. -/
def defaultMember : Member :=
  { username := "", sid := 0, status := MemberStatus.active, last_seen := none }

/-- Python `data.get('payload', default)` read as a string. -/
def pyGetStrOr (v : Option PyValue) (dflt : String) : String :=
  match v with
  | some (PyValue.str s) => s
  | _ => dflt

/-- Python `data.get('payload', default)` read as a boolean. -/
def pyGetBoolOr (v : Option PyValue) (dflt : Bool) : Bool :=
  match v with
  | some (PyValue.bool b) => b
  | _ => dflt

/-- The roster payload built at app.py lines 181-188, 313-320 and 514-521. -/
def rosterOf (members : List Member) (host_sid : Option Nat) : List UserEntry :=
  members.map (fun m =>
    { username := m.username,
      is_host := some m.sid == host_sid,
      is_active := m.status == MemberStatus.active : UserEntry })

structure JoinData where
  room_code : RoomCode
  username : String
deriving DecidableEq

/-- The `member_data` record built at app.py lines 212-217. -/
def newMemberData (username : String) (sid : Nat) (now : Int) : Member :=
  { username := username, sid := sid, status := MemberStatus.active,
    last_seen := some now }

/-- `handle_join_room` (app.py lines 192-326).  Returns the mutated collection
and the ordered list of emissions. -/
def handle_join_room (db : List Room) (sid : Nat) (now : Int) (data : JoinData) :
    List Room × List Emission :=
  let room_code := pyUpper data.room_code
  let username := pyStrip data.username
  match db.find? (byCode room_code) with
  | none => (db, [(EmitTarget.toCaller, EventPayload.errorMsg "Room not found")])
  | some room =>
    if 5 ≤ room.members.length then
      (db, [(EmitTarget.toCaller, EventPayload.errorMsg "Room is full")])
    else
      let existing_member := room.members.find? (byUsername username)
      let member_data : Member := newMemberData username sid now
      let step : List Room × Bool × List Emission :=
        match existing_member with
        | some em =>
          let dbA := rebindMember room_code username sid now db
          if room.host_sid == some em.sid then
            (setHostSid room_code sid dbA, true,
             [(EmitTarget.toRoom room_code, EventPayload.hostReturned)])
          else
            (dbA, true, [])
        | none =>
          if room.members.isEmpty then
            (pushMemberAsHost room_code sid member_data db, false, [])
          else
            (pushMember room_code member_data db, false, ([] : List Emission))
      let db1 := step.1
      let is_reconnect := step.2.1
      let preEmits := step.2.2
      let db2 := update_room_activity room_code now db1
      match db2.find? (byCode room_code) with
      | none => (db2, preEmits)
      | some updated_room =>
        let infoEmit : Emission :=
          (EmitTarget.toCaller, EventPayload.roomInfo updated_room.room_name room_code
            updated_room.is_code_visible (updated_room.host_sid == some sid) username)
        let graceEmits : List Emission :=
          match updated_room.host_sid with
          | none => []
          | some h =>
            match updated_room.members.find? (bySid h) with
            | none => []
            | some host_member =>
              if host_member.status == MemberStatus.disconnected then
                let last_seen := host_member.last_seen.getD datetimeMin
                let elapsed := now - last_seen
                let remaining := max 0 (GRACE_PERIOD_SECONDS - elapsed)
                if 0 < remaining then
                  [(EmitTarget.toSid sid,
                    EventPayload.hostDisconnectGrace host_member.username true remaining)]
                else []
              else []
        let history := chatHistory updated_room.messages
        let joinedText :=
          if is_reconnect then username ++ " has reconnected."
          else username ++ " has joined the chat."
        let user_list := rosterOf updated_room.members updated_room.host_sid
        (db2, preEmits ++ [infoEmit] ++ graceEmits ++
          [(EmitTarget.toCaller, EventPayload.chatHistoryEv history),
           (EmitTarget.toRoomSkip room_code sid, EventPayload.systemMessage joinedText),
           (EmitTarget.toRoom room_code, EventPayload.updateUserList user_list)])

/-- The emission section of `handle_disconnect` (app.py lines 161-190): re-fetch
the room, locate the member, warn about a disconnected host, send the roster. -/
def disconnectEmits (room_code : RoomCode) (sid : Nat) (db1 : List Room) :
    List Emission :=
  match db1.find? (byCode room_code) with
  | none => []
  | some room2 =>
    match room2.members.find? (bySid sid) with
    | none => []
    | some member =>
      let hostEmits : List Emission :=
        if room2.host_sid == some sid then
          [(EmitTarget.toRoom room_code, EventPayload.systemMessage
              ("Host " ++ member.username ++
               " has disconnected. Room will close or transfer host in 10 minutes.")),
           (EmitTarget.toRoom room_code,
            EventPayload.hostDisconnectGrace member.username true GRACE_PERIOD_SECONDS)]
        else []
      let user_list := rosterOf room2.members room2.host_sid
      hostEmits ++
        [(EmitTarget.toRoom room_code, EventPayload.updateUserList user_list)]

/-- `handle_disconnect` (app.py lines 141-190): mark the member disconnected
with the positional update, then emit the notifications. -/
def handle_disconnect (db : List Room) (sid : Nat) (now : Int) :
    List Room × List Emission :=
  match db.find? (hasSid sid) with
  | none => (db, [])
  | some room =>
    let room_code := room.room_code
    let db1 := markDisconnected room_code sid now db
    (db1, disconnectEmits room_code sid db1)

structure SendData where
  room_code : RoomCode
  message : String
deriving DecidableEq

/-- `handle_send_message` (app.py lines 328-380). -/
def handle_send_message (db : List Room) (sid : Nat) (now : Int) (data : SendData) :
    List Room × List Emission :=
  let room_code := pyUpper data.room_code
  let message := pyStrip data.message
  if message == "" then (db, [])
  else
    match db.find? (byCode room_code) with
    | none => (db, [(EmitTarget.toCaller, EventPayload.errorMsg "Room not found")])
    | some room =>
      match room.members.find? (bySid sid) with
      | none => (db, [(EmitTarget.toCaller, EventPayload.errorMsg "You are not in this room")])
      | some sender =>
        let db1 := update_room_activity room_code now db
        let stored : ChatMessage :=
          { username := sender.username, message := message, timestamp := now }
        let db2 := pushMessage room_code stored db1
        (db2,
         [(EmitTarget.toRoomSkip room_code sid, EventPayload.receiveMessage
             { username := sender.username, message := message, timestamp := now,
               is_own := false }),
          (EmitTarget.toCaller, EventPayload.receiveMessage
             { username := sender.username, message := message, timestamp := now,
               is_own := true })])

structure HostActionData where
  room_code : RoomCode
  action : String
  payload : Option PyValue
deriving DecidableEq

/-- `handle_host_action` (app.py lines 382-440). -/
def handle_host_action (db : List Room) (sid : Nat) (data : HostActionData) :
    List Room × List Emission :=
  let room_code := pyUpper data.room_code
  match db.find? (byCode room_code) with
  | none => (db, [(EmitTarget.toCaller, EventPayload.errorMsg "Room not found")])
  | some room =>
    if !(room.host_sid == some sid) then
      (db, [(EmitTarget.toCaller,
        EventPayload.errorMsg "Only the host can perform this action")])
    else if data.action == "rename_room" then
      let new_name := pyStrip (pyGetStrOr data.payload "")
      if new_name == "" then (db, [])
      else
        (updateFirst (byCode room_code) (fun r => { r with room_name := new_name }) db,
         [(EmitTarget.toRoom room_code,
           EventPayload.roomUpdated "room_name" (PyValue.str new_name)),
          (EmitTarget.toRoom room_code, EventPayload.systemMessage
            ("Host changed the room name to \"" ++ new_name ++ "\""))])
    else if data.action == "toggle_code_visibility" then
      let is_visible := pyGetBoolOr data.payload true
      (updateFirst (byCode room_code)
        (fun r => { r with is_code_visible := is_visible }) db,
       [(EmitTarget.toRoom room_code,
         EventPayload.roomUpdated "is_code_visible" (PyValue.bool is_visible))])
    else if data.action == "delete_room" then
      (removeFirst (byCode room_code) db,
       [(EmitTarget.toRoom room_code,
         EventPayload.roomDeleted "The host has closed this room.")])
    else (db, [])

/-- The sids collected by the sweeper's expiry scan over one room's members
(app.py lines 458-467): disconnected members whose elapsed time since
`last_seen` (default `datetime.min`) strictly exceeds the grace period. -/
def membersToRemove (now : Int) (ms : List Member) : List Nat :=
  (ms.filter (fun m =>
    m.status == MemberStatus.disconnected &&
    decide (GRACE_PERIOD_SECONDS < now - m.last_seen.getD datetimeMin))).map
    (fun m => m.sid)

/-- The member list after the sweeper's `$pull` of the expired sids
(app.py lines 471-474). -/
def membersAfterPull (now : Int) (ms : List Member) : List Member :=
  ms.filter (fun m => !(membersToRemove now ms).contains m.sid)

/-- One room's processing inside a sweeper tick (app.py lines 452-522),
acting on the collection `db` with the cursor snapshot `room`. -/
def sweepRoomInDb (now : Int) (db : List Room) (room : Room) :
    List Room × List Emission :=
  let toRemove := membersToRemove now room.members
  if toRemove.isEmpty then (db, [])
  else
    let db1 := pullExpired room.room_code toRemove db
    let expired_usernames :=
      (room.members.filter (fun m => toRemove.contains m.sid)).map (fun m => m.username)
    match db1.find? (byCode room.room_code) with
    | none => (db1, [])
    | some updated_room =>
      if updated_room.members.isEmpty then
        (removeFirst (byCode room.room_code) db1, [])
      else
        let host_removed :=
          match room.host_sid with
          | some hs => toRemove.contains hs
          | none => false
        let step : List Room × List Emission :=
          if host_removed then
            let new_host := (updated_room.members.find?
                (fun m => m.status == MemberStatus.active)).getD
              (updated_room.members.headD defaultMember)
            (setHostSid room.room_code new_host.sid db1,
             [(EmitTarget.toRoom room.room_code, EventPayload.newHost new_host.sid),
              (EmitTarget.toRoom room.room_code, EventPayload.systemMessage
                ("Host rights transferred to " ++ new_host.username ++
                 " due to inactivity."))])
          else (db1, ([] : List Emission))
        let removalEmits := expired_usernames.map (fun u =>
          (EmitTarget.toRoom room.room_code,
           EventPayload.systemMessage (u ++ " was removed due to inactivity.")))
        let user_list := rosterOf updated_room.members updated_room.host_sid
        (step.1, step.2 ++ removalEmits ++
          [(EmitTarget.toRoom room.room_code, EventPayload.updateUserList user_list)])

/-- The sweeper's iteration over the cursor snapshot.  `fail c` models a raised
exception (e.g. a store error) while processing the room with code `c`; the
`try`/`except` at app.py lines 445/524 wraps the WHOLE loop, so the first
exception ends the tick, leaving later rooms untouched. -/
def sweepLoop (now : Int) (fail : RoomCode → Bool) (db : List Room) :
    List Room → List Room × List Emission
  | [] => (db, [])
  | r :: rs =>
    if fail r.room_code then (db, [])
    else
      let step := sweepRoomInDb now db r
      let rest := sweepLoop now fail step.1 rs
      (rest.1, step.2 ++ rest.2)

/-- One tick of `check_grace_periods` (app.py lines 442-525): take the cursor
snapshot of rooms having a disconnected member, then process them in order. -/
def check_grace_periods_tick (now : Int) (fail : RoomCode → Bool) (db : List Room) :
    List Room × List Emission :=
  sweepLoop now fail db
    (db.filter (fun r => r.members.any (fun m => m.status == MemberStatus.disconnected)))

/-- Fold a sequence of join operations over the collection (used to state the
capacity invariant over arbitrary join sequences). -/
def applyJoins (db : List Room) : List (Nat × Int × JoinData) → List Room
  | [] => db
  | op :: rest => applyJoins (handle_join_room db op.1 op.2.1 op.2.2).1 rest

/- Concrete fixtures used by counterexamples and witnesses. -/

/-- An active member with the given name and session handle. -/
def mkActive (u : String) (s : Nat) : Member :=
  { username := u, sid := s, status := MemberStatus.active, last_seen := some 100 }

/-- A disconnected member named alice whose grace period expired long ago. -/
def memAliceDisc : Member :=
  { username := "alice", sid := 2, status := MemberStatus.disconnected, last_seen := some 0 }

/-- A full room (5 members) one of whom is the disconnected alice. -/
def roomC1 : Room :=
  { room_code := [65, 66, 67, 68, 69, 70], room_name := "r", host_sid := some 3,
    members := [memAliceDisc, mkActive "b" 3, mkActive "c" 4, mkActive "d" 5, mkActive "e" 6],
    messages := [], is_code_visible := false, created_at := 0, last_active_at := 0 }

def dbC1 : List Room := [roomC1]

/-- Room A: one active member and one expired disconnected member. -/
def roomA : Room :=
  { room_code := [65], room_name := "a", host_sid := some 1,
    members := [mkActive "x" 1, memAliceDisc], messages := [], is_code_visible := false,
    created_at := 0, last_active_at := 0 }

/-- Room B: same shape as room A, with distinct sids. -/
def roomB : Room :=
  { room_code := [66], room_name := "b", host_sid := some 3,
    members := [mkActive "y" 3,
      { username := "z", sid := 4, status := MemberStatus.disconnected, last_seen := some 0 }],
    messages := [], is_code_visible := false, created_at := 0, last_active_at := 0 }

def dbC2 : List Room := [roomA, roomB]

/-- A room whose disconnected host has expired while one active member remains. -/
def roomC3 : Room :=
  { room_code := [67], room_name := "c", host_sid := some 2,
    members := [memAliceDisc, mkActive "bob" 3], messages := [], is_code_visible := false,
    created_at := 0, last_active_at := 0 }

/-- A two-member room used by the message and disconnect witnesses. -/
def roomC6 : Room :=
  { room_code := [68], room_name := "d", host_sid := some 1,
    members := [mkActive "ann" 1, mkActive "ben" 2],
    messages := [{ username := "ann", message := "hi", timestamp := 50 }],
    is_code_visible := false, created_at := 0, last_active_at := 0 }

/-- A freshly created room with no members yet. -/
def roomC7 : Room :=
  { room_code := [69], room_name := "e", host_sid := none, members := [],
    messages := [], is_code_visible := false, created_at := 0, last_active_at := 0 }

/-- A disconnected member whose record carries no last_seen field. -/
def memNoSeen : Member :=
  { username := "ghost", sid := 9, status := MemberStatus.disconnected, last_seen := none }

def roomC10 : Room :=
  { room_code := [71], room_name := "g", host_sid := some 1,
    members := [mkActive "x" 1, memNoSeen], messages := [], is_code_visible := false,
    created_at := 0, last_active_at := 0 }

/- Helper lemmas about the store primitives. -/

theorem length_updateFirst (p : α → Bool) (g : α → α) (l : List α) :
    (updateFirst p g l).length = l.length := by
  induction l with
  | nil => rfl
  | cons x xs ih =>
    simp only [updateFirst]
    split <;> simp [ih]

theorem find?_split {p : α → Bool} {l : List α} {x : α} (h : l.find? p = some x) :
    ∃ l1 l2, l = l1 ++ x :: l2 ∧ ∀ y ∈ l1, p y = false := by
  induction l with
  | nil => simp at h
  | cons a as ih =>
    by_cases hpa : p a
    · rw [List.find?_cons_of_pos _ hpa, Option.some_inj] at h
      exact ⟨[], as, by rw [h]; rfl, by simp⟩
    · rw [List.find?_cons_of_neg _ (by simpa using hpa)] at h
      obtain ⟨l1, l2, rfl, hf⟩ := ih h
      refine ⟨a :: l1, l2, rfl, ?_⟩
      intro y hy
      rcases List.mem_cons.mp hy with rfl | hy
      · simpa using hpa
      · exact hf y hy

theorem find?_append_first {p : α → Bool} {l1 : List α} (l2 : List α) {x : α}
    (hfail : ∀ y ∈ l1, p y = false) (hx : p x = true) :
    (l1 ++ x :: l2).find? p = some x := by
  induction l1 with
  | nil => simpa using List.find?_cons_of_pos l2 hx
  | cons a as ih =>
    have ha : p a = false := hfail a (by simp)
    rw [List.cons_append, List.find?_cons_of_neg _ (by simp [ha])]
    exact ih (fun y hy => hfail y (by simp [hy]))

theorem updateFirst_append_first {p : α → Bool} (g : α → α) {l1 : List α} (l2 : List α)
    {x : α} (hfail : ∀ y ∈ l1, p y = false) (hx : p x = true) :
    updateFirst p g (l1 ++ x :: l2) = l1 ++ g x :: l2 := by
  induction l1 with
  | nil => simp [updateFirst, hx]
  | cons a as ih =>
    have ha : p a = false := hfail a (by simp)
    rw [List.cons_append, updateFirst, if_neg (by simp [ha]), List.cons_append,
      ih (fun y hy => hfail y (by simp [hy]))]

theorem updateFirst_forall {P : α → Prop} {p : α → Bool} {g : α → α} {l : List α}
    (hg : ∀ x, P x → P (g x)) (h : ∀ x ∈ l, P x) : ∀ x ∈ updateFirst p g l, P x := by
  induction l with
  | nil => simp [updateFirst]
  | cons a as ih =>
    simp only [updateFirst]
    split
    · intro x hx
      rcases List.mem_cons.mp hx with rfl | hx
      · exact hg a (h a (by simp))
      · exact h x (by simp [hx])
    · intro x hx
      rcases List.mem_cons.mp hx with rfl | hx
      · exact h x (by simp)
      · exact ih (fun y hy => h y (by simp [hy])) x hx

theorem upperChar_idem (c : Nat) : upperChar (upperChar c) = upperChar c := by
  simp only [upperChar]
  by_cases h : 97 ≤ c ∧ c ≤ 122
  · simp only [if_pos h]
    exact if_neg (by omega)
  · simp only [if_neg h]

theorem pyUpper_idem (s : RoomCode) : pyUpper (pyUpper s) = pyUpper s := by
  induction s with
  | nil => rfl
  | cons c cs ih =>
    simp only [pyUpper, List.map_cons] at *
    rw [upperChar_idem, ih]

/-- Splitting lemma: one `update_one` keyed by room code, applied to a
collection split around the first room with that code. -/
theorem find?_byCode_update1 {c : RoomCode} {d1 : List Room} (d2 : List Room)
    {room : Room} (g1 : Room → Room)
    (hfail : ∀ y ∈ d1, byCode c y = false) (hroom : room.room_code = c)
    (hg1 : ∀ r, (g1 r).room_code = r.room_code) :
    (updateFirst (byCode c) g1 (d1 ++ room :: d2)).find? (byCode c) = some (g1 room) := by
  rw [updateFirst_append_first g1 d2 hfail (by simp [byCode, hroom])]
  exact find?_append_first d2 hfail (by simp [byCode, hg1, hroom])

/-- Splitting lemma: two chained `update_one` calls keyed by room code,
followed by a re-fetch of the same room. -/
theorem find?_byCode_update2 {c : RoomCode} {d1 : List Room} (d2 : List Room)
    {room : Room} (g1 g2 : Room → Room)
    (hfail : ∀ y ∈ d1, byCode c y = false) (hroom : room.room_code = c)
    (hg1 : ∀ r, (g1 r).room_code = r.room_code)
    (hg2 : ∀ r, (g2 r).room_code = r.room_code) :
    (updateFirst (byCode c) g2 (updateFirst (byCode c) g1 (d1 ++ room :: d2))).find?
      (byCode c) = some (g2 (g1 room)) := by
  rw [updateFirst_append_first g1 d2 hfail (by simp [byCode, hroom]),
    updateFirst_append_first g2 d2 hfail (by simp [byCode, hg1, hroom])]
  exact find?_append_first d2 hfail (by simp [byCode, hg2, hg1, hroom])

/-- Splitting lemma: two chained `update_one` calls keyed by room code, result
stated on the collection itself. -/
theorem byCode_update2_split {c : RoomCode} {d1 : List Room} (d2 : List Room)
    {room : Room} (g1 g2 : Room → Room)
    (hfail : ∀ y ∈ d1, byCode c y = false) (hroom : room.room_code = c)
    (hg1 : ∀ r, (g1 r).room_code = r.room_code) :
    updateFirst (byCode c) g2 (updateFirst (byCode c) g1 (d1 ++ room :: d2)) =
      d1 ++ g2 (g1 room) :: d2 := by
  rw [updateFirst_append_first g1 d2 hfail (by simp [byCode, hroom]),
    updateFirst_append_first g2 d2 hfail (by simp [byCode, hg1, hroom])]

/-- Shared fact: a join against a found room whose member count is at least 5
returns the RoomFull error and leaves the collection untouched
(app.py lines 205-207 run before the reconnect check at line 210). -/
theorem handle_join_room_full {db : List Room} {sid : Nat} {now : Int} {d : JoinData}
    {room : Room}
    (hfind : db.find? (byCode (pyUpper d.room_code)) = some room)
    (hfull : 5 ≤ room.members.length) :
    handle_join_room db sid now d =
      (db, [(EmitTarget.toCaller, EventPayload.errorMsg "Room is full")]) := by
  simp only [handle_join_room, hfind, if_pos hfull]

/- Claim theorems. -/

/-- Claim C5 (confirmed): the history delivered on join, `chatHistory`
(app.py line 299), is the chronologically-last suffix of the stored message
sequence of length min(50, length), and never exceeds 50 entries. -/
theorem chat_history_window (msgs : List ChatMessage) :
    chatHistory msgs <:+ msgs ∧
    (chatHistory msgs).length = min 50 msgs.length ∧
    (chatHistory msgs).length ≤ 50 := by
  refine ⟨List.drop_suffix _ _, ?_, ?_⟩ <;>
    simp only [chatHistory, List.length_drop] <;> omega

/-- Claim C9 (confirmed): join, send_message and host_action uppercase the
supplied room code before the room lookup, so each behaves identically on a
room code and on its uppercased form. -/
theorem handlers_uppercase_room_code (db : List Room) (sid : Nat) (now : Int)
    (rc : RoomCode) (u msg act : String) (pl : Option PyValue) :
    handle_join_room db sid now { room_code := pyUpper rc, username := u } =
      handle_join_room db sid now { room_code := rc, username := u } ∧
    handle_send_message db sid now { room_code := pyUpper rc, message := msg } =
      handle_send_message db sid now { room_code := rc, message := msg } ∧
    handle_host_action db sid { room_code := pyUpper rc, action := act, payload := pl } =
      handle_host_action db sid { room_code := rc, action := act, payload := pl } := by
  refine ⟨?_, ?_, ?_⟩
  · simp only [handle_join_room, pyUpper_idem]
  · simp only [handle_send_message, pyUpper_idem]
  · simp only [handle_host_action, pyUpper_idem]

/-- Claim C1 counterexample: in a full room containing the disconnected member
alice, a join request with display_name alice is rejected with RoomFull and
nothing is rebound, although the name matches an existing (disconnected)
member — the capacity check at app.py line 205 runs before the reconnect
check at line 210. -/
theorem join_full_reconnect_rejected_cex :
    handle_join_room dbC1 99 1000 { room_code := [65, 66, 67, 68, 69, 70], username := "alice" } =
      (dbC1, [(EmitTarget.toCaller, EventPayload.errorMsg "Room is full")]) ∧
    roomC1.members.find? (byUsername "alice") = some memAliceDisc ∧
    memAliceDisc.status = MemberStatus.disconnected ∧
    roomC1.members.length = 5 := by
  decide

/-- Claim C1 (amended, proved): for every room whose members list has 5 or more
entries, EVERY join request — including one whose display_name matches an
existing, possibly disconnected, member — fails with RoomFull and leaves the
collection unchanged; a name-matching reconnect succeeds only when the member
count is below 5. -/
theorem join_full_always_room_full (db : List Room) (sid : Nat) (now : Int)
    (d : JoinData) (room : Room)
    (hfind : db.find? (byCode (pyUpper d.room_code)) = some room)
    (hfull : 5 ≤ room.members.length) :
    handle_join_room db sid now d =
      (db, [(EmitTarget.toCaller, EventPayload.errorMsg "Room is full")]) :=
  handle_join_room_full hfind hfull

/-- Witness for the amended claim C1 at a concrete full room. -/
theorem join_full_always_room_full_witness :
    handle_join_room dbC1 7 2000 { room_code := [65, 66, 67, 68, 69, 70], username := "zoe" } =
      (dbC1, [(EmitTarget.toCaller, EventPayload.errorMsg "Room is full")]) :=
  join_full_always_room_full dbC1 7 2000
    { room_code := [65, 66, 67, 68, 69, 70], username := "zoe" } roomC1
    (by decide) (by decide)

/-- Claim C2 counterexample: with two rooms each holding an expired
disconnected member, a failure while processing room A ends the whole tick
(the try/except at app.py lines 445/524 wraps the loop over rooms), so room B
is not swept even though its member z (sid 4) is expired. -/
theorem sweep_isolation_cex :
    (check_grace_periods_tick 1000 (fun c => c == [65]) dbC2).1 = dbC2 ∧
    membersToRemove 1000 roomB.members = [4] ∧
    roomB ∈ dbC2 := by
  decide

/-- Claim C2 (amended, proved): an exception while processing one room is
caught at the tick level, so the sweeper survives, but it aborts the remainder
of that tick: the collection after the tick equals the collection after
processing only the rooms that precede the failing room, and every room from
the failing room onwards is left untouched until a later tick. -/
theorem sweep_failure_aborts_rest_of_tick (now : Int) (fail : RoomCode → Bool)
    (db : List Room) (l1 : List Room) (rf : Room) (l2 : List Room)
    (h1 : ∀ r ∈ l1, fail r.room_code = false) (h2 : fail rf.room_code = true) :
    sweepLoop now fail db (l1 ++ rf :: l2) = sweepLoop now fail db l1 := by
  induction l1 generalizing db with
  | nil =>
    simp only [List.nil_append, sweepLoop, h2, if_true]
  | cons a as ih =>
    have ha : fail a.room_code = false := h1 a (by simp)
    simp only [List.cons_append, sweepLoop, ha, Bool.false_eq_true, if_false,
      List.append_eq]
    rw [ih _ (fun r hr => h1 r (List.mem_cons_of_mem a hr))]

/-- Witness for the amended claim C2: with the failure on room B, the tick
stops after processing room A. -/
theorem sweep_failure_aborts_rest_of_tick_witness :
    sweepLoop 1000 (fun c => c == [66]) dbC2 ([roomA] ++ roomB :: []) =
      sweepLoop 1000 (fun c => c == [66]) dbC2 [roomA] :=
  sweep_failure_aborts_rest_of_tick 1000 (fun c => c == [66]) dbC2 [roomA] roomB []
    (by intro r hr; simp only [List.mem_singleton] at hr; subst hr; decide)
    (by decide)

/-- Claim C7 (confirmed): a join that adds the first-ever member to a room
(empty members list) sets host_sid to the joiner's handle (app.py lines
244-253); a new-member join to a non-empty room pushes the member without
touching host_sid (lines 254-258). The collection is split as
`d1 ++ room :: d2` around the first room carrying the looked-up code. -/
theorem join_host_assignment (db : List Room) (sid : Nat) (now : Int) (d : JoinData)
    (d1 d2 : List Room) (room : Room)
    (hdb : db = d1 ++ room :: d2)
    (hfail : ∀ y ∈ d1, byCode (pyUpper d.room_code) y = false)
    (hcode : room.room_code = pyUpper d.room_code) :
    (room.members = [] →
      ((handle_join_room db sid now d).1).find? (byCode (pyUpper d.room_code)) =
        some { room with
          host_sid := some sid
          members := [newMemberData (pyStrip d.username) sid now]
          last_active_at := now }) ∧
    (room.members ≠ [] → room.members.length < 5 →
      room.members.find? (byUsername (pyStrip d.username)) = none →
      ((handle_join_room db sid now d).1).find? (byCode (pyUpper d.room_code)) =
        some { room with
          members := room.members ++ [newMemberData (pyStrip d.username) sid now]
          last_active_at := now }) := by
  subst hdb
  have hp : byCode (pyUpper d.room_code) room = true := by simp [byCode, hcode]
  have hfind : (d1 ++ room :: d2).find? (byCode (pyUpper d.room_code)) = some room :=
    find?_append_first d2 hfail hp
  constructor
  · intro hempty
    have hlen : ¬ (5 ≤ room.members.length) := by rw [hempty]; simp
    simp only [handle_join_room, hfind]
    rw [if_neg hlen]
    simp only [hempty, List.find?_nil, List.isEmpty_nil, if_true]
    cases hfm : (update_room_activity (pyUpper d.room_code) now
        (pushMemberAsHost (pyUpper d.room_code) sid
          (newMemberData (pyStrip d.username) sid now) (d1 ++ room :: d2))).find?
        (byCode (pyUpper d.room_code)) <;>
      simp only [update_room_activity, pushMemberAsHost] <;>
      refine Eq.trans (find?_byCode_update2 d2 _ _ hfail hcode ?_ ?_) ?_ <;>
        first
        | intro r; rfl
        | simp [hempty]
  · intro hne hlt hnew
    have hlen : ¬ (5 ≤ room.members.length) := by omega
    have hememp : room.members.isEmpty = false := List.isEmpty_eq_false.mpr hne
    simp only [handle_join_room, hfind]
    rw [if_neg hlen]
    simp only [hnew, hememp, Bool.false_eq_true, if_false]
    cases hfm : (update_room_activity (pyUpper d.room_code) now
        (pushMember (pyUpper d.room_code)
          (newMemberData (pyStrip d.username) sid now) (d1 ++ room :: d2))).find?
        (byCode (pyUpper d.room_code)) <;>
      simp only [update_room_activity, pushMember] <;>
      refine Eq.trans (find?_byCode_update2 d2 _ _ hfail hcode ?_ ?_) ?_ <;>
        first
        | intro r; rfl
        | simp

/-- Claim C3 (confirmed): when a sweeper pass over a room removes an expired
set containing the host and the remaining member list is non-empty, host_sid
is set to the sid of the first remaining member with status active in roster
order, falling back to the first remaining member (app.py lines 490-499). -/
theorem sweep_host_reelection (now : Int) (db : List Room) (d1 d2 : List Room)
    (room : Room) (h : Nat)
    (hdb : db = d1 ++ room :: d2)
    (hfail : ∀ y ∈ d1, byCode room.room_code y = false)
    (hhost : room.host_sid = some h)
    (hexp : (membersToRemove now room.members).contains h = true)
    (hne : (membersAfterPull now room.members).isEmpty = false) :
    ((sweepRoomInDb now db room).1).find? (byCode room.room_code) =
      some { room with
        members := membersAfterPull now room.members
        host_sid := some ((((membersAfterPull now room.members).find?
            (fun m => m.status == MemberStatus.active)).getD
          ((membersAfterPull now room.members).headD defaultMember)).sid) } := by
  subst hdb
  have hremne : (membersToRemove now room.members).isEmpty = false := by
    cases hc : membersToRemove now room.members with
    | nil => rw [hc] at hexp; simp at hexp
    | cons a as => simp
  have hne' : (room.members.filter
      (fun m => !(membersToRemove now room.members).contains m.sid)).isEmpty = false := by
    simpa [membersAfterPull] using hne
  have e1 : (updateFirst (byCode room.room_code)
      (fun r => { r with members := r.members.filter (fun m => !(membersToRemove now room.members).contains m.sid) })
      (d1 ++ room :: d2)).find? (byCode room.room_code) =
      some { room with members := room.members.filter (fun m => !(membersToRemove now room.members).contains m.sid) } :=
    find?_byCode_update1 d2 _ hfail rfl (fun r => rfl)
  simp only [sweepRoomInDb, hremne, Bool.false_eq_true, if_false, pullExpired, e1,
    hne', hhost, hexp, if_true, setHostSid]
  refine Eq.trans (find?_byCode_update2 d2 _ _ hfail rfl ?_ ?_) ?_
  · intro r; rfl
  · intro r; rfl
  · simp [membersAfterPull]

/-- Witness for claim C3: the expired disconnected host alice is removed and
bob, the first remaining active member, becomes host. -/
theorem sweep_host_reelection_witness :
    ((sweepRoomInDb 1000 [roomC3] roomC3).1).find? (byCode roomC3.room_code) =
      some { roomC3 with
        members := membersAfterPull 1000 roomC3.members
        host_sid := some ((((membersAfterPull 1000 roomC3.members).find?
            (fun m => m.status == MemberStatus.active)).getD
          ((membersAfterPull 1000 roomC3.members).headD defaultMember)).sid) } :=
  sweep_host_reelection 1000 [roomC3] [] [] roomC3 2 rfl (by simp) (by decide)
    (by decide) (by decide)

/-- Claim C8 (confirmed, frame property): disconnecting a session handle that
is a member of some room only sets that member's status to disconnected and
stamps its last_seen; the member and the room survive, and every other room,
member and room field is unchanged (app.py lines 147-159; removal is deferred
to the sweeper). -/
theorem disconnect_frame (db : List Room) (sid : Nat) (now : Int)
    (d1 d2 : List Room) (room : Room) (m1 m2 : List Member) (mem : Member)
    (hdb : db = d1 ++ room :: d2)
    (hfailR : ∀ y ∈ d1, hasSid sid y = false)
    (hmem : room.members = m1 ++ mem :: m2)
    (hfailM : ∀ y ∈ m1, bySid sid y = false)
    (hsid : mem.sid = sid) :
    (handle_disconnect db sid now).1 =
      d1 ++ { room with members := m1 ++ { mem with status := MemberStatus.disconnected, last_seen := some now } :: m2 } :: d2 := by
  subst hdb
  have hpm : bySid sid mem = true := by simp [bySid, hsid]
  have hany : room.members.any (bySid sid) = true := by
    rw [hmem]
    exact List.any_eq_true.mpr ⟨mem, by simp, hpm⟩
  have hpR : hasSid sid room = true := by simp [hasSid, hany]
  have hfind : (d1 ++ room :: d2).find? (hasSid sid) = some room :=
    find?_append_first d2 hfailR hpR
  have hfailCS : ∀ y ∈ d1, byCodeAndSid room.room_code sid y = false := by
    intro y hy
    have hy2 := hfailR y hy
    simp only [hasSid] at hy2
    simp [byCodeAndSid, hy2]
  have eM : updateFirst (bySid sid)
      (fun m =>
        { m with
          status := MemberStatus.disconnected
          last_seen := some now })
      room.members =
      m1 ++ { mem with status := MemberStatus.disconnected, last_seen := some now } :: m2 := by
    rw [hmem]
    exact updateFirst_append_first _ m2 hfailM hpm
  have eR : markDisconnected room.room_code sid now (d1 ++ room :: d2) =
      d1 ++ { room with members := m1 ++
        { mem with status := MemberStatus.disconnected, last_seen := some now } :: m2 } :: d2 := by
    simp only [markDisconnected]
    rw [updateFirst_append_first _ d2 hfailCS (by simp [byCodeAndSid, byCode, hany])]
    simp only [eM]
  simp only [handle_disconnect, hfind, eR]

/-- Witness for claim C8: ben (sid 2) disconnects from a two-member room; only
his member record changes. -/
theorem disconnect_frame_witness :
    (handle_disconnect [roomC6] 2 500).1 =
      [] ++ { roomC6 with members := [mkActive "ann" 1] ++ { mkActive "ben" 2 with status := MemberStatus.disconnected, last_seen := some 500 } :: [] } :: [] :=
  disconnect_frame [roomC6] 2 500 [] [] roomC6 [mkActive "ann" 1] [] (mkActive "ben" 2)
    (by decide) (by simp) (by decide) (by decide) (by decide)

/-- Witness for claim C7: eve joins the empty room and becomes host; eve joins
the two-member room and the host is untouched. -/
theorem join_host_assignment_witness :
    ((handle_join_room [roomC7] 7 100 { room_code := [69], username := "eve" }).1).find? (byCode (pyUpper ([69] : RoomCode))) =
      some { roomC7 with host_sid := some 7, members := [newMemberData (pyStrip "eve") 7 100], last_active_at := 100 } ∧
    ((handle_join_room [roomC6] 7 100 { room_code := [68], username := "eve" }).1).find? (byCode (pyUpper ([68] : RoomCode))) =
      some { roomC6 with members := roomC6.members ++ [newMemberData (pyStrip "eve") 7 100], last_active_at := 100 } :=
  ⟨(join_host_assignment [roomC7] 7 100 { room_code := [69], username := "eve" }
      [] [] roomC7 rfl (by simp) (by decide)).1 (by decide),
   (join_host_assignment [roomC6] 7 100 { room_code := [68], username := "eve" }
      [] [] roomC6 rfl (by simp) (by decide)).2 (by decide) (by decide) (by decide)⟩

/-- Claim C6 (confirmed): a successful send_message appends exactly the stored
record (username, message, timestamp — the ChatMessage type has no is_own
field) to the room's messages (app.py lines 363-370), and in the fan-out the
sender's delivered copy has is_own = true while every other handle's copy has
is_own = false (lines 372-376). -/
theorem send_message_is_own_flag (db : List Room) (sid : Nat) (now : Int) (d : SendData)
    (connected : RoomCode → List Nat) (d1 d2 : List Room) (room : Room) (sender : Member)
    (hdb : db = d1 ++ room :: d2)
    (hfail : ∀ y ∈ d1, byCode (pyUpper d.room_code) y = false)
    (hcode : room.room_code = pyUpper d.room_code)
    (hmsg : (pyStrip d.message == "") = false)
    (hsender : room.members.find? (bySid sid) = some sender) :
    ((handle_send_message db sid now d).1 =
      d1 ++ { room with messages := room.messages ++ [{ username := sender.username, message := pyStrip d.message, timestamp := now }], last_active_at := now } :: d2) ∧
    (∀ s e, (s, e) ∈ deliveries sid connected (handle_send_message db sid now d).2 →
      ∀ pl, e = EventPayload.receiveMessage pl → (pl.is_own = true ↔ s = sid)) := by
  subst hdb
  have hfind : (d1 ++ room :: d2).find? (byCode (pyUpper d.room_code)) = some room :=
    find?_append_first d2 hfail (by simp [byCode, hcode])
  constructor
  · simp only [handle_send_message, hmsg, Bool.false_eq_true, if_false, hfind, hsender,
      update_room_activity, pushMessage]
    refine Eq.trans (byCode_update2_split d2 _ _ hfail hcode ?_) ?_
    · intro r; rfl
    · simp
  · intro s e hmem pl hpl
    simp only [handle_send_message, hmsg, Bool.false_eq_true, if_false, hfind, hsender,
      deliveries, List.map_cons, List.map_nil, deliverTo, List.flatten_cons,
      List.flatten_nil, List.append_nil] at hmem
    rcases List.mem_append.mp hmem with hm | hm
    · obtain ⟨t, ht, hpair⟩ := List.mem_map.mp hm
      cases hpair
      have htne := (List.mem_filter.mp ht).2
      rw [Bool.not_eq_true'] at htne
      cases hpl
      simp only [beq_eq_false_iff_ne] at htne
      simp [htne]
    · rw [List.mem_singleton] at hm
      cases hm
      cases hpl
      simp

/-- Witness for claim C6: ann (sid 1) sends a message in the two-member room
with handles 1 and 2 connected. -/
theorem send_message_is_own_flag_witness :
    ((handle_send_message [roomC6] 1 600 { room_code := [68], message := "yo" }).1 =
      [] ++ { roomC6 with messages := roomC6.messages ++ [{ username := (mkActive "ann" 1).username, message := pyStrip "yo", timestamp := 600 }], last_active_at := 600 } :: []) ∧
    (∀ s e, (s, e) ∈ deliveries 1 (fun _ => [1, 2])
        (handle_send_message [roomC6] 1 600 { room_code := [68], message := "yo" }).2 →
      ∀ pl, e = EventPayload.receiveMessage pl → (pl.is_own = true ↔ s = 1)) :=
  send_message_is_own_flag [roomC6] 1 600 { room_code := [68], message := "yo" }
    (fun _ => [1, 2]) [] [] roomC6 (mkActive "ann" 1) rfl (by simp) (by decide)
    (by decide) (by decide)

/-- Claim C10 (confirmed): a disconnected member whose record has no last_seen
is treated by the sweeper's scan as having last_seen = datetime.min (app.py
line 461), so for any tick at a non-negative clock its elapsed time exceeds
the 600-second grace period: its sid is collected and the member is pulled. -/
theorem sweep_removes_member_without_last_seen (now : Int) (ms : List Member) (m : Member)
    (hm : m ∈ ms) (hst : m.status = MemberStatus.disconnected)
    (hls : m.last_seen = none) (hnow : 0 ≤ now) :
    m.sid ∈ membersToRemove now ms ∧ m ∉ membersAfterPull now ms := by
  have hcond : (m.status == MemberStatus.disconnected &&
      decide (GRACE_PERIOD_SECONDS < now - m.last_seen.getD datetimeMin)) = true := by
    rw [hst, hls]
    simp only [Option.getD_none, beq_self_eq_true, Bool.true_and, decide_eq_true_eq,
      GRACE_PERIOD_SECONDS, datetimeMin]
    omega
  have h1 : m.sid ∈ membersToRemove now ms := by
    simp only [membersToRemove, List.mem_map]
    exact ⟨m, List.mem_filter.mpr ⟨hm, hcond⟩, rfl⟩
  refine ⟨h1, ?_⟩
  intro hcontra
  simp only [membersAfterPull] at hcontra
  have h2 := (List.mem_filter.mp hcontra).2
  rw [Bool.not_eq_true'] at h2
  have h3 : (membersToRemove now ms).contains m.sid = true := by simpa using h1
  rw [h3] at h2
  cases h2

/-- Witness for claim C10: the ghost member with no last_seen is swept at
clock 0. -/
theorem sweep_removes_member_without_last_seen_witness :
    memNoSeen.sid ∈ membersToRemove 0 roomC10.members ∧
    memNoSeen ∉ membersAfterPull 0 roomC10.members :=
  sweep_removes_member_without_last_seen 0 roomC10.members memNoSeen
    (by decide) (by decide) (by decide) (by decide)

/-- Helper for the capacity invariant: both push updates keep every room at or
below 5 members when the pushed-into room had fewer than 5. -/
theorem pushes_preserve_le5 (c : RoomCode) (sid : Nat) (md : Member)
    (d1 d2 : List Room) (room : Room)
    (hfail : ∀ y ∈ d1, byCode c y = false) (hroom : room.room_code = c)
    (h : ∀ r ∈ d1 ++ room :: d2, r.members.length ≤ 5)
    (hlt : room.members.length < 5) :
    (∀ r ∈ pushMember c md (d1 ++ room :: d2), r.members.length ≤ 5) ∧
    (∀ r ∈ pushMemberAsHost c sid md (d1 ++ room :: d2), r.members.length ≤ 5) := by
  have hp : byCode c room = true := by simp [byCode, hroom]
  constructor
  · simp only [pushMember]
    rw [updateFirst_append_first _ d2 hfail hp]
    intro r hr
    rcases List.mem_append.mp hr with h1 | h1
    · exact h r (List.mem_append.mpr (Or.inl h1))
    · rcases List.mem_cons.mp h1 with rfl | h2
      · simp only [List.length_append, List.length_cons, List.length_nil]
        omega
      · exact h r (List.mem_append.mpr (Or.inr (List.mem_cons_of_mem _ h2)))
  · simp only [pushMemberAsHost]
    rw [updateFirst_append_first _ d2 hfail hp]
    intro r hr
    rcases List.mem_append.mp hr with h1 | h1
    · exact h r (List.mem_append.mpr (Or.inl h1))
    · rcases List.mem_cons.mp h1 with rfl | h2
      · simp only [List.length_append, List.length_cons, List.length_nil]
        omega
      · exact h r (List.mem_append.mpr (Or.inr (List.mem_cons_of_mem _ h2)))

/-- Helper: one join step preserves the 5-member capacity bound on every room
of the collection. -/
theorem join_step_le5 (db : List Room) (sid : Nat) (now : Int) (d : JoinData)
    (h : ∀ r ∈ db, r.members.length ≤ 5) :
    ∀ r ∈ (handle_join_room db sid now d).1, r.members.length ≤ 5 := by
  have hAct : ∀ (dbx : List Room), (∀ r ∈ dbx, r.members.length ≤ 5) →
      ∀ r ∈ update_room_activity (pyUpper d.room_code) now dbx, r.members.length ≤ 5 := by
    intro dbx hx
    simp only [update_room_activity]
    exact updateFirst_forall (fun x h1 => by simpa using h1) hx
  cases hfind : db.find? (byCode (pyUpper d.room_code)) with
  | none =>
    simpa only [handle_join_room, hfind] using h
  | some room =>
    by_cases hfull : 5 ≤ room.members.length
    · simp only [handle_join_room, hfind, if_pos hfull]
      exact h
    · have hcode : room.room_code = pyUpper d.room_code := by
        have h2 := List.find?_some hfind
        simpa [byCode] using h2
      obtain ⟨d1, d2, hdb, hfailD⟩ := find?_split hfind
      cases hex : room.members.find? (byUsername (pyStrip d.username)) with
      | some em =>
        have hReb : ∀ r ∈ rebindMember (pyUpper d.room_code) (pyStrip d.username) sid now db,
            r.members.length ≤ 5 := by
          simp only [rebindMember]
          exact updateFirst_forall (fun x h1 => by simpa [length_updateFirst] using h1) h
        cases hh : room.host_sid == some em.sid with
        | true =>
          have hHost : ∀ r ∈ setHostSid (pyUpper d.room_code) sid
              (rebindMember (pyUpper d.room_code) (pyStrip d.username) sid now db),
              r.members.length ≤ 5 := by
            simp only [setHostSid]
            exact updateFirst_forall (fun x h1 => by simpa using h1) hReb
          simp only [handle_join_room, hfind, if_neg hfull, hex, hh, if_true]
          cases hfm : (update_room_activity (pyUpper d.room_code) now
              (setHostSid (pyUpper d.room_code) sid
                (rebindMember (pyUpper d.room_code) (pyStrip d.username) sid now db))).find?
              (byCode (pyUpper d.room_code)) <;>
            simp only [] <;> exact hAct _ hHost
        | false =>
          simp only [handle_join_room, hfind, if_neg hfull, hex, hh, Bool.false_eq_true,
            if_false]
          cases hfm : (update_room_activity (pyUpper d.room_code) now
              (rebindMember (pyUpper d.room_code) (pyStrip d.username) sid now db)).find?
              (byCode (pyUpper d.room_code)) <;>
            simp only [] <;> exact hAct _ hReb
      | none =>
        subst hdb
        cases hemp : room.members.isEmpty with
        | true =>
          have hPush := (pushes_preserve_le5 (pyUpper d.room_code) sid
            (newMemberData (pyStrip d.username) sid now) d1 d2 room hfailD hcode h
            (by omega)).2
          simp only [handle_join_room, hfind, if_neg hfull, hex, hemp, if_true]
          cases hfm : (update_room_activity (pyUpper d.room_code) now
              (pushMemberAsHost (pyUpper d.room_code) sid
                (newMemberData (pyStrip d.username) sid now) (d1 ++ room :: d2))).find?
              (byCode (pyUpper d.room_code)) <;>
            simp only [] <;> exact hAct _ hPush
        | false =>
          have hPush := (pushes_preserve_le5 (pyUpper d.room_code) sid
            (newMemberData (pyStrip d.username) sid now) d1 d2 room hfailD hcode h
            (by omega)).1
          simp only [handle_join_room, hfind, if_neg hfull, hex, hemp, Bool.false_eq_true,
            if_false]
          cases hfm : (update_room_activity (pyUpper d.room_code) now
              (pushMember (pyUpper d.room_code)
                (newMemberData (pyStrip d.username) sid now) (d1 ++ room :: d2))).find?
              (byCode (pyUpper d.room_code)) <;>
            simp only [] <;> exact hAct _ hPush

/-- Claim C4 (confirmed): under any sequence of join operations, every room's
member count stays at or below 5; a join against a room already holding 5 or
more members changes nothing in the collection (app.py lines 205-207 and the
push branches at 240-258). -/
theorem members_capacity_invariant :
    (∀ (db : List Room) (ops : List (Nat × Int × JoinData)),
      (∀ r ∈ db, r.members.length ≤ 5) →
      ∀ r ∈ applyJoins db ops, r.members.length ≤ 5) ∧
    (∀ (db : List Room) (sid : Nat) (now : Int) (d : JoinData) (room : Room),
      db.find? (byCode (pyUpper d.room_code)) = some room →
      5 ≤ room.members.length →
      (handle_join_room db sid now d).1 = db) := by
  constructor
  · intro db ops
    induction ops generalizing db with
    | nil =>
      intro h
      simpa only [applyJoins] using h
    | cons op rest ih =>
      intro h
      simp only [applyJoins]
      exact ih _ (join_step_le5 db op.1 op.2.1 op.2.2 h)
  · intro db sid now d room hfind hfull
    rw [handle_join_room_full hfind hfull]

/-- Witness for claim C4: the capacity bound holds after a join sequence
against the full room, and a join against the full room is a no-op on it. -/
theorem members_capacity_invariant_witness :
    (∀ r ∈ applyJoins dbC1 [(99, 1000, { room_code := [65, 66, 67, 68, 69, 70], username := "alice" })],
      r.members.length ≤ 5) ∧
    (handle_join_room dbC1 8 3000 { room_code := [65, 66, 67, 68, 69, 70], username := "walt" }).1 = dbC1 :=
  ⟨members_capacity_invariant.1 dbC1 _ (by decide),
   members_capacity_invariant.2 dbC1 8 3000 _ roomC1 (by decide) (by decide)⟩

end Scribe
